import Mathlib

/-!
Verification of the MacJournal document-model parser (`MJParser.py`) against its
natural-language specification.

The development shallowly embeds the parts of the source that the claims are
about:

* a `minidom`-style markup tree (`XML`) with the exact accessors the source
  uses (`nodeName`, `childNodes`, `firstChild`, `nodeValue`, `wholeText`,
  `getElementsByTagName`, `getAttribute`, `attributes.items()`);
* POSIX `os.path.join` / `os.path.splitext` string semantics (`pjoin`,
  `splitextExt`);
* the node constructors (`_childFactory`, `journal.__init__`,
  `TrashJournal._parseContents`, `entry.__init__`, `mjdoc.__init__`) as
  fallible functions returning `Except PyErr _`;
* the path queries (`RelativePath`, `RealPath`) over the parent back-reference
  chain, keyword resolution (`keywords`), the location accessors, and the
  LaTeX export pass (`MakeLaTeX`).

Python exceptions are modelled by `PyErr`; the one non-Python constructor,
`PyErr.fuelOut`, is the artifact of bounding the (non-structural) recursion of
the node factory and the export traversal by an explicit fuel parameter.
-/

/-- Python exceptions that the embedded code can raise.  `fuelOut` is not a
Python exception: it marks exhaustion of the explicit recursion bound used to
embed the recursive tree walks. -/
inductive PyErr where
  | typeError (msg : String)
  | indexError
  | keyError (k : String)
  | attributeError (msg : String)
  | notImplementedError (msg : String)
  | osError (msg : String)
  | valueError (msg : String)
  | fuelOut
deriving DecidableEq

/-- Markup tree in the shape `xml.dom.minidom` presents it: element nodes with
a tag name, an attribute list and ordered children, and text nodes. -/
inductive XML where
  | element (tag : String) (attrs : List (String × String)) (children : List XML)
  | text (data : String)

/-- Tag name of an element; minidom reports `"#text"` for text nodes. -/
def XML.nodeName : XML → String
  | .element tg _ _ => tg
  | .text _ => "#text"

/-- Direct children of a node (text nodes have none). -/
def XML.childNodes : XML → List XML
  | .element _ _ cs => cs
  | .text _ => []

/-- Attribute list of an element (`attributes.items()` in minidom). -/
def XML.attrsOf : XML → List (String × String)
  | .element _ a _ => a
  | .text _ => []

/-- First child of a node, `None` when there is none. -/
def XML.firstChild (x : XML) : Option XML := x.childNodes.head?

/-- minidom `nodeValue`: the data of a text node, `None` on an element. -/
def XML.nodeValue : XML → Option String
  | .text d => some d
  | .element _ _ _ => none

/-- minidom `wholeText` on a text node is its data (in a parsed document
adjacent text nodes are already merged); reading it on an element raises
`AttributeError`. -/
def XML.wholeText : XML → Except PyErr String
  | .text d => .ok d
  | .element _ _ _ => .error (.attributeError "wholeText")

mutual
/-- Descendant elements with the given tag name, in document (preorder)
order, including the node itself when it matches; helper for
`XML.getElements`. -/
def XML.elemsIncl (t : String) : XML → List XML
  | .text _ => []
  | .element tg a cs =>
      (if tg = t then [XML.element tg a cs] else []) ++ XML.elemsInclL t cs

/-- List version of `XML.elemsIncl`, concatenating in document order. -/
def XML.elemsInclL (t : String) : List XML → List XML
  | [] => []
  | c :: cs => XML.elemsIncl t c ++ XML.elemsInclL t cs
end

/-- minidom `getElementsByTagName`: every descendant element (excluding the
node itself) with the given tag, in document order. -/
def XML.getElements (x : XML) (t : String) : List XML :=
  match x with
  | .text _ => []
  | .element _ _ cs => XML.elemsInclL t cs

/-- minidom `getAttribute`: the attribute's value, or `""` when absent. -/
def XML.getAttribute (x : XML) (name : String) : String :=
  match (x.attrsOf.find? (fun kv => kv.1 = name)) with
  | some kv => kv.2
  | none => ""

/-- POSIX `os.path.join` on character lists: an absolute second component
replaces the first, otherwise a separator is inserted unless the first
component is empty or already ends in a separator (CPython `posixpath.join`). -/
def pjoinL (a b : List Char) : List Char :=
  if b.head? = some '/' then b
  else if a = [] ∨ a.getLast? = some '/' then a ++ b
  else a ++ '/' :: b

/-- POSIX `os.path.join` for two components. -/
def pjoin (a b : String) : String := ⟨pjoinL a.data b.data⟩

/-- Extension scan of CPython `posixpath.splitext`, walking the reversed
character list: stop without an extension at a path separator; at the
rightmost dot, produce an extension only when some earlier basename character
is not a dot (leading dots never start an extension). The accumulator holds
the characters already passed, in original order. -/
def splitextExtGo : List Char → List Char → List Char
  | [], _ => []
  | c :: rest, acc =>
    if c = '/' then []
    else if c = '.' then
      (if (rest.takeWhile (fun d => d ≠ '/')).any (fun d => d ≠ '.') then '.' :: acc else [])
    else splitextExtGo rest (c :: acc)

/-- Second component of CPython `os.path.splitext`: the extension of the last
path segment, `""` when the segment has no (non-leading) dot. -/
def splitextExt (s : String) : String := ⟨splitextExtGo s.data.reverse []⟩

/-- Lookup in a Python `dict` built from an association list (`dict(pairs)`
keeps the last binding of a key); a missing key raises `KeyError`. -/
def pyDictGet (l : List (String × String)) (k : String) : Except PyErr String :=
  match (l.reverse.find? (fun kv => kv.1 = k)) with
  | some kv => .ok kv.2
  | none => .error (.keyError k)

/-- Insertion into a Python `OrderedDict`: an existing key is updated in
place (keeping its position), a new key is appended. -/
def odInsert {α : Type} (l : List (String × α)) (k : String) (v : α) : List (String × α) :=
  if l.any (fun kv => kv.1 = k) then l.map (fun kv => if kv.1 = k then (k, v) else kv)
  else l ++ [(k, v)]

/-- Stand-in for the value `datetime.datetime.strptime` would produce.  The
stored value (the raw `nodeValue` text handed to the call) is never consumed
by any operation of the program, so an abstract carrier suffices. -/
abbrev PyDateTime := Option String

/-- Behaviour of `datetime.datetime.strptime(text)` exactly as the source
calls it at line 164 — with a single argument and no format string: CPython
raises `TypeError: strptime() missing required argument` before looking at
the argument, for every input. -/
def strptime1 : Option String → Except PyErr PyDateTime :=
  fun _ => .error (.typeError "strptime() missing required argument")

/-- Hypothetical date parse that succeeds on every input.  The claims about
paths, keywords, classification and export concern the code that runs after
the date-parsing step; instantiating the parser with `strptimeOk` lets those
code paths be examined, while `strptime1` models the call the source
actually makes (see the claim about construction always raising). -/
def strptimeOk : Option String → Except PyErr PyDateTime := fun v => .ok v

/-- Value handed to `strptime` for one date field (`_MJElement.__init__`,
lines 160-164): the first direct child named `attr` (a missing one raises
`IndexError` from the `[0]`), then `firstChild.nodeValue` (a childless date
node raises `AttributeError` on the `None`). -/
def dateNodeValue (x : XML) (attr : String) : Except PyErr (Option String) :=
  match ((x.childNodes.filter (fun n => n.nodeName = attr)).head?) with
  | none => .error .indexError
  | some dn =>
    match dn.firstChild with
    | none => .error (.attributeError "nodeValue")
    | some fc => .ok fc.nodeValue

/-- Date loop of `_MJElement.__init__`: parse the `date`, `created` and
`modified` child fields in that order with the given `strptime` behaviour. -/
def parseDates (p : Option String → Except PyErr PyDateTime) (x : XML) :
    Except PyErr (PyDateTime × PyDateTime × PyDateTime) := do
  let v ← dateNodeValue x "date"
  let date ← p v
  let v ← dateNodeValue x "created"
  let created ← p v
  let v ← dateNodeValue x "modified"
  let modified ← p v
  .ok (date, created, modified)

/-- Journal variants: `journal`, `smart_journal`, `TrashJournal`. -/
inductive JKind where
  | regular
  | smart
  | trash
deriving DecidableEq

/-- Constructed nodes.  A journal keeps its display name, the three parsed
dates, its `children` list (`none` for a Trash journal, whose
`_parseContents` override never sets the attribute), the name-keyed
`Journals` mapping, the `Entries` list, and the keyword-template element if
one was associated.  An entry keeps its topic/display name, dates, the
`content` attribute dictionary, the derived `filename`, and its
keyword-template element if present. -/
inductive MJNode where
  | journal (kind : JKind) (name : String)
      (date created modified : PyDateTime)
      (children : Option (List MJNode))
      (journals : List (String × MJNode))
      (entries : List MJNode)
      (kwElems : Option XML)
  | entry (name : String)
      (date created modified : PyDateTime)
      (content : List (String × String))
      (filename : String)
      (kwElems : Option XML)

/-- Display name of a node (`self.name`). -/
def MJNode.nameOf : MJNode → String
  | .journal _ nm _ _ _ _ _ _ _ => nm
  | .entry nm _ _ _ _ _ _ => nm

/-- Whether the node is a journal (of any variant). -/
def MJNode.isJournal : MJNode → Bool
  | .journal _ _ _ _ _ _ _ _ _ => true
  | .entry _ _ _ _ _ _ _ => false

/-- Journal variant of the node, `none` for an entry. -/
def MJNode.kindOf : MJNode → Option JKind
  | .journal k _ _ _ _ _ _ _ _ => some k
  | .entry _ _ _ _ _ _ _ => none

/-- The `Entries` collection of a journal (`[]` for an entry). -/
def MJNode.entriesOf : MJNode → List MJNode
  | .journal _ _ _ _ _ _ _ es _ => es
  | .entry _ _ _ _ _ _ _ => []

/-- The `Journals` collection of a journal (`[]` for an entry). -/
def MJNode.journalsOf : MJNode → List (String × MJNode)
  | .journal _ _ _ _ _ _ js _ _ => js
  | .entry _ _ _ _ _ _ _ => []

/-- The `content` attribute dictionary of an entry. -/
def MJNode.contentOf : MJNode → List (String × String)
  | .journal _ _ _ _ _ _ _ _ _ => []
  | .entry _ _ _ _ ct _ _ => ct

/-- The derived `filename` of an entry. -/
def MJNode.filenameOf : MJNode → String
  | .journal _ _ _ _ _ _ _ _ _ => ""
  | .entry _ _ _ _ _ fn _ => fn

/-- The keyword-template element associated with the node, if any. -/
def MJNode.kwElemsOf : MJNode → Option XML
  | .journal _ _ _ _ _ _ _ _ kw => kw
  | .entry _ _ _ _ _ _ kw => kw

/-- The `_realpath` physical sub-path fragment: `None` for every journal
(`journal.__init__` line 241), `os.path.join('Content', filename)` for an
entry (line 390). -/
def MJNode.realpathFrag : MJNode → Option String
  | .journal _ _ _ _ _ _ _ _ _ => none
  | .entry _ _ _ _ _ fn _ => some (pjoin "Content" fn)

/-- Lookup of `xml.getElementsByTagName(t)[0]` (raising `IndexError` when no
descendant matches) followed by `.firstChild.wholeText`. -/
def wholeTextOfFirst (x : XML) (t : String) : Except PyErr String :=
  match (x.getElements t).head? with
  | none => .error .indexError
  | some e =>
    match e.firstChild with
    | none => .error (.attributeError "wholeText")
    | some fc => fc.wholeText

/-- Lookup of `x.getElementsByTagName(t)[0]`: the first matching descendant
element, `IndexError` when there is none. -/
def firstOfTagE (x : XML) (t : String) : Except PyErr XML :=
  match (x.getElements t).head? with
  | none => .error .indexError
  | some e => .ok e

/-- Topic lookup of `entry.__init__` (lines 372-376): the first `topic`
descendant's text if one exists, otherwise `""`. -/
def entryTopic (x : XML) : Except PyErr String :=
  match (x.getElements "topic").head? with
  | none => .ok ""
  | some te =>
    match te.firstChild with
    | none => .error (.attributeError "wholeText")
    | some fc => fc.wholeText

/-- Constructor of `entry` (lines 369-390), after the date step: topic, then
the keyword template (first `keywords` descendant, if any), then the
`content` dictionary from the first `content` descendant's attributes
(`IndexError` when missing), then the filename `content['id'] +
os.path.splitext(content['type'])[1]`. -/
def entryInit (p : Option String → Except PyErr PyDateTime) (x : XML) :
    Except PyErr MJNode := do
  let (date, created, modified) ← parseDates p x
  let name ← entryTopic x
  let kw := (x.getElements "keywords").head?
  let contentEl ← firstOfTagE x "content"
  let content := contentEl.attrsOf
  let ty ← pyDictGet content "type"
  let i ← pyDictGet content "id"
  .ok (.entry name date created modified content (i ++ splitextExt ty) kw)

/-- The prototype/keywords association of `journal._parseContents`
(lines 272-280): the first `keywords` descendant of the first `prototype`
descendant, when both exist.  In the source this lookup sits inside the
`if children:` block, so it only runs when a `children` element was found. -/
def journalKwLookup (x : XML) : Option XML :=
  match (x.getElements "prototype").head? with
  | none => none
  | some proto => (proto.getElements "keywords").head?

/-- Loop body of `journal._parseContents`: each child node is classified by
the factory (passed in as `build`), appended to `children`, and filed into
`Journals` (keyed by name, later duplicates overwriting) or `Entries`.  The
source's final `else`-branch (`NotImplementedError`) is unreachable because
the factory only returns journal and entry instances. -/
def buildChildren (build : XML → Except PyErr MJNode) :
    List XML → List MJNode → List (String × MJNode) → List MJNode →
    Except PyErr (List MJNode × List (String × MJNode) × List MJNode)
  | [], cs, js, es => .ok (cs, js, es)
  | cn :: rest, cs, js, es => do
    let child ← build cn
    match child with
    | .journal _ _ _ _ _ _ _ _ _ =>
      buildChildren build rest (cs ++ [child]) (odInsert js child.nameOf child) es
    | .entry _ _ _ _ _ _ _ =>
      buildChildren build rest (cs ++ [child]) js (es ++ [child])

/-- `journal._parseContents` (lines 249-280): when a `children` element is
found (first descendant), build every one of its child nodes through the
factory, storing journals in the `Journals` mapping and entries in the
`Entries` list, and finally associate the prototype keyword template; with
no `children` element only `self.children = []` happens. -/
def parseContents (build : XML → Except PyErr MJNode) (x : XML) :
    Except PyErr (List MJNode × List (String × MJNode) × List MJNode × Option XML) :=
  match (x.getElements "children").head? with
  | none => .ok ([], [], [], none)
  | some ch => do
    let (cs, js, es) ← buildChildren build ch.childNodes [] [] []
    .ok (cs, js, es, journalKwLookup x)

/-- Constructor shared by `journal`, `smart_journal` and `TrashJournal`
(lines 231-247): the `_MJElement` date step, the display name from the first
`name` descendant, `_realpath = None`, empty `Entries`/`Journals`, then
`_parseContents` — which for the Trash variant is overridden to do nothing
(lines 358-362), leaving the collections empty and the `children` attribute
unset. -/
def journalInit (p : Option String → Except PyErr PyDateTime)
    (build : XML → Except PyErr MJNode) (kind : JKind) (x : XML) :
    Except PyErr MJNode := do
  let (date, created, modified) ← parseDates p x
  let name ← wholeTextOfFirst x "name"
  match kind with
  | .trash => .ok (.journal .trash name date created modified none [] [] none)
  | _ => do
    let (children, journals, entries, kw) ← parseContents build x
    .ok (.journal kind name date created modified (some children) journals entries kw)

/-- `_childFactory` (lines 108-139): dispatch on the tag name; a `journal`
tag first reads the first `name` descendant's text and picks the Trash
variant when it equals `"Trash"`; any other tag name raises
`NotImplementedError`.  The `fuel` argument bounds the recursion through
`journal._parseContents`. -/
def childFactory (p : Option String → Except PyErr PyDateTime) :
    Nat → XML → Except PyErr MJNode
  | 0, _ => .error .fuelOut
  | fuel + 1, x =>
    if x.nodeName = "smart_journal" then
      journalInit p (fun c => childFactory p fuel c) .smart x
    else if x.nodeName = "journal" then do
      let name ← wholeTextOfFirst x "name"
      if name = "Trash" then journalInit p (fun c => childFactory p fuel c) .trash x
      else journalInit p (fun c => childFactory p fuel c) .regular x
    else if x.nodeName = "entry" then
      entryInit p x
    else
      .error (.notImplementedError
        ("I don\x27t know how to deal with child type: " ++ x.nodeName))

/-- Document object of `mjdoc`: the source path (normalised), its absolute
form, the `Content` sub-path, the relative path (set to `''` at line 37),
and the ordered name-keyed mapping of top-level journals. -/
structure MJDocT where
  path : String
  abs_path : String
  Content : String
  rel_path : String
  Journals : List (String × MJNode)

/-- `mjdoc.RelativePath` (line 62). -/
def MJDocT.RelativePath (d : MJDocT) : String := d.rel_path

/-- `mjdoc.RealPath` (line 66). -/
def MJDocT.RealPath (d : MJDocT) : String := d.abs_path

/-- Top-level loop of `mjdoc.__init__` (lines 53-56): classify every child
of the `children` element and file it into the `Journals` ordered mapping
under its name. -/
def docJournals (p : Option String → Except PyErr PyDateTime) (fuel : Nat) :
    List XML → List (String × MJNode) → Except PyErr (List (String × MJNode))
  | [], acc => .ok acc
  | c :: cns, acc => do
    let J ← childFactory p fuel c
    docJournals p fuel cns (odInsert acc J.nameOf J)

/-- `mjdoc.__init__` (lines 23-56).  The filesystem probe `os.path.isdir`
and the gzip/minidom decoding are external: the probe's outcome is the
`isDir` argument and the decoded index tree is the `index` argument (whose
root element is among the children of the document node).  The normalised
and absolute forms of the source path are likewise taken as inputs.  Then:
reject a non-directory, set `Content` and `rel_path`, locate
`macjournalml`, `bookcase` and `children`, and classify the top-level
children. -/
def mjdocInit (p : Option String → Except PyErr PyDateTime) (fuel : Nat)
    (isDir : Bool) (path abs_path : String) (index : XML) :
    Except PyErr MJDocT :=
  if isDir then do
    let macjournalml ← firstOfTagE index "macjournalml"
    let bookcase ← firstOfTagE macjournalml "bookcase"
    let childrenEl ← firstOfTagE bookcase "children"
    let js ← docJournals p fuel childrenEl.childNodes []
    .ok { path := path, abs_path := abs_path, Content := pjoin path "Content",
          rel_path := "", Journals := js }
  else
    .error (.osError "The MacJournal document doesn\x27t exist")

/-- The data of a node that its parent-chain path queries read: its display
name and its `_realpath` fragment. -/
structure NodeData where
  name : String
  frag : Option String

/-- The path-relevant data of a constructed node. -/
def MJNode.toData (n : MJNode) : NodeData := ⟨n.nameOf, n.realpathFrag⟩

/-- Parent back-reference chain of a node: the document root, or a parent
chain extended by one node.  This is exactly the object graph the upward
path queries of `_MJElement` walk. -/
inductive MJChain where
  | doc (d : MJDocT)
  | cons (parent : MJChain) (nd : NodeData)

/-- `RelativePath` (`_MJElement.RelativePath`, lines 173-179, and
`mjdoc.RelativePath`, line 62): join of the parent's relative path with the
node's name; the document root answers its `rel_path`. -/
def MJChain.RelativePath : MJChain → String
  | .doc d => d.RelativePath
  | .cons p nd => pjoin p.RelativePath nd.name

/-- `RealPath` (`_MJElement.RealPath`, lines 188-195, and `mjdoc.RealPath`,
line 66): when the node's `_realpath` fragment is truthy (a non-empty
string), join it onto the parent's real path, otherwise delegate to the
parent unchanged; the document root answers its absolute path. -/
def MJChain.RealPath : MJChain → String
  | .doc d => d.RealPath
  | .cons p nd =>
    match nd.frag with
    | some s => if s ≠ "" then pjoin p.RealPath s else p.RealPath
    | none => p.RealPath

/-- Loop body of `_MJElement.keywords` (lines 210-219): for each `keyword`
descendant of the template, read `firstChild.wholeText` and append it to the
accumulated list unless already present. -/
def foldKw : List XML → List String → Except PyErr (List String)
  | [], acc => .ok acc
  | k :: ks, acc => do
    let w ← match k.firstChild with
      | none => .error (.attributeError "wholeText")
      | some fc => fc.wholeText
    foldKw ks (if w ∈ acc then acc else acc ++ [w])

/-- Keyword computation of `_MJElement.keywords` on a first (uncached) call:
start from `[]` (the parent's keywords are explicitly not inherited — the
inheriting line is commented out at line 207), then, when a keyword template
is associated, fold its `keyword` descendants in. -/
def computeKeywords (kwElems : Option XML) : Except PyErr (List String) :=
  match kwElems with
  | none => .ok []
  | some ke => foldKw (ke.getElements "keyword") []

/-- One call of `_MJElement.keywords` (lines 197-221) with its `_keywords`
cache made explicit: a cached value is returned as is; otherwise the list is
computed and cached.  (On an exception inside the computation Python would
leave a partially-filled cache behind; the claims below only concern calls
that complete.) -/
def keywordsCall (cache : Option (List String)) (kwElems : Option XML) :
    Except PyErr (List String × Option (List String)) :=
  match cache with
  | some ks => .ok (ks, some ks)
  | none => do
    let ks ← computeKeywords kwElems
    .ok (ks, some ks)

/-- Texts of the `keyword` descendants of a template element, in document
order — the words `_MJElement.keywords` reads. -/
def kwTextList : List XML → Except PyErr (List String)
  | [] => .ok []
  | k :: ks => do
    let w ← match k.firstChild with
      | none => .error (.attributeError "wholeText")
      | some fc => fc.wholeText
    let ws ← kwTextList ks
    .ok (w :: ws)

/-- Texts of the `keyword` descendants of a template element. -/
def kwTextsOf (ke : XML) : Except PyErr (List String) :=
  kwTextList (ke.getElements "keyword")

/-- Recursive worker for `dedupFirstSeen`, carrying the list of
already-seen elements. -/
def dedupGo : List String → List String → List String
  | _, [] => []
  | seen, w :: ws => if w ∈ seen then dedupGo seen ws else w :: dedupGo (seen ++ [w]) ws

/-- List with duplicates dropped keeping the first occurrence of each
element — the order the specification describes for keyword resolution
("add each to the result only if not already present").  Stated
independently of the source so the code's fold can be compared with it. -/
def dedupFirstSeen (ws : List String) : List String := dedupGo [] ws

/-- `entry.latitude` (lines 402-412): `None` without a `location` element,
otherwise `float` (the external conversion, passed in as `pyfloat`) of the
element's `latitude` attribute. -/
def entryLatitude {α : Type} (pyfloat : String → Except PyErr α) (x : XML) :
    Except PyErr (Option α) :=
  match (x.getElements "location").head? with
  | none => .ok none
  | some loc => do
    let v ← pyfloat (loc.getAttribute "latitude")
    .ok (some v)

/-- `entry.longitude` (lines 414-424): same as latitude with the
`longitude` attribute. -/
def entryLongitude {α : Type} (pyfloat : String → Except PyErr α) (x : XML) :
    Except PyErr (Option α) :=
  match (x.getElements "location").head? with
  | none => .ok none
  | some loc => do
    let v ← pyfloat (loc.getAttribute "longitude")
    .ok (some v)

/-- `entry.location` (lines 426-441): call latitude and longitude; `None`
when the latitude is `None`, otherwise the pair `(lat, lon)` (whose second
component Python would leave as `None` if only the longitude were absent,
hence the `Option` in the pair). -/
def entryLocation {α : Type} (pyfloat : String → Except PyErr α) (x : XML) :
    Except PyErr (Option (α × Option α)) := do
  let lat ← entryLatitude pyfloat x
  let lon ← entryLongitude pyfloat x
  match lat with
  | none => .ok none
  | some la => .ok (some (la, lon))

/-- Mutable state the export pass touches: the set of directories that
exist (`os.path.isdir` / `os.mkdir`) and the accumulated heading lines
(`LT.lines`).

Modelled from the spec: the `LaTeX.LaTeXTemplate` collaborator `LT` is
external to the source ("consumed as a simple line-accumulator with a
level→heading-name table"), so its `lines` list is carried here and its
`LaTeXLevels` table is the `levels` argument of the export functions. -/
structure ExpSt where
  fs : List String
  lines : List String
deriving DecidableEq

/-- Heading line a journal appends (line 324):
`u"\n\n\\{}{{{}}}".format(texLevel, self.name)`. -/
def headingPlain (texLevel name : String) : String :=
  "\n\n\\" ++ texLevel ++ "\x7b" ++ name ++ "\x7d"

/-- Starred heading line an entry appends (line 477):
`u"\n\n\\{}*{{{}}}".format(texLevel, self.name)`. -/
def headingStar (texLevel name : String) : String :=
  "\n\n\\" ++ texLevel ++ "*\x7b" ++ name ++ "\x7d"

/-- `LT.LaTeXLevels[level]`: indexing the level→heading-name table; an
out-of-range level raises `IndexError`. -/
def levelsGet (levels : List String) (i : Nat) : Except PyErr String :=
  match levels.get? i with
  | some s => .ok s
  | none => .error .indexError

/-- Child loop shared by `journal.MakeLaTeX` (lines 326-328) and
`mjdoc.MakeLaTeX` (lines 95-96): run the export (`run`) on each child in
order; an exception stops the loop but keeps the mutations made so far, and
the enclosing method returns `None` after the loop. -/
def exportChildren (run : MJNode → String → Nat → ExpSt → ExpSt × Except PyErr (Option String)) :
    List MJNode → String → Nat → ExpSt → ExpSt × Except PyErr (Option String)
  | [], _, _, st => (st, .ok none)
  | c :: cs, texdir, level, st =>
    match run c texdir level st with
    | (st', .error e) => (st', .error e)
    | (st', .ok _) => exportChildren run cs texdir level st'

/-- One node's `MakeLaTeX` as the export pass invokes it on a child:
`child.MakeLaTeX(LT, texdir, level=…)`.

* For a smart journal the override (line 338) has parameters
  `(self, texdir, level=0)`, so this call binds `LT` to `texdir` and both
  the positional directory and the keyword to `level`: Python raises
  `TypeError` before the body runs, touching nothing.
* For a regular journal (lines 308-328): compute the sub-directory named
  after the journal, create it when absent (idempotent), append a plain
  heading at `LaTeXLevels[level]`, then loop over `self.children` at
  `level + 1` and return `None`.
* For a Trash journal the same body runs, but its `_parseContents` never
  set `self.children`, so the loop raises `AttributeError` after the
  directory and heading mutations.
* For an entry (lines 463-479): no directory; compute the destination path,
  append a starred heading, and return the path without writing any file
  content. -/
def childMakeLaTeX (levels : List String) :
    Nat → MJNode → String → Nat → ExpSt → ExpSt × Except PyErr (Option String)
  | 0, _, _, _, st => (st, .error .fuelOut)
  | _ + 1, .journal .smart _ _ _ _ _ _ _ _, _, _, st =>
    (st, .error (.typeError "MakeLaTeX() got multiple values for argument \x27level\x27"))
  | fuel + 1, .journal _ name _ _ _ children _ _ _, texdir, level, st =>
    let texdir' := pjoin texdir name
    let st1 := if texdir' ∈ st.fs then st else { st with fs := st.fs ++ [texdir'] }
    match levelsGet levels level with
    | .error e => (st1, .error e)
    | .ok texLevel =>
      let st2 := { st1 with lines := st1.lines ++ [headingPlain texLevel name] }
      match children with
      | none => (st2, .error (.attributeError "children"))
      | some cs =>
        exportChildren (fun n d l s => childMakeLaTeX levels fuel n d l s)
          cs texdir' (level + 1) st2
  | _ + 1, .entry name _ _ _ _ _ _, texdir, level, st =>
    let path := pjoin texdir name
    match levelsGet levels level with
    | .error e => (st, .error e)
    | .ok texLevel =>
      ({ st with lines := st.lines ++ [headingStar texLevel name] }, .ok (some path))

/-- `mjdoc.MakeLaTeX` (lines 83-96): iterate the top-level journals in
order, invoking each one's `MakeLaTeX` with the same destination directory
and the same level, and return `None`. -/
def mjdocMakeLaTeX (levels : List String) (fuel : Nat) (d : MJDocT)
    (texdir : String) (level : Nat) (st : ExpSt) :
    ExpSt × Except PyErr (Option String) :=
  exportChildren (fun n dir l s => childMakeLaTeX levels fuel n dir l s)
    (d.Journals.map (fun kv => kv.2)) texdir level st

/-- Inversion of a successful `Except` bind. -/
theorem exceptBind_ok_iff {α β : Type} {e : Except PyErr α} {f : α → Except PyErr β} {b : β} :
    (e >>= f) = .ok b ↔ ∃ a, e = .ok a ∧ f a = .ok b := by
  cases e <;> simp [Bind.bind, Except.bind]

/-- A bind starting from an error is that error. -/
theorem exceptBind_error {α β : Type} {er : PyErr} {f : α → Except PyErr β} :
    ((Except.error er : Except PyErr α) >>= f) = .error er := rfl

/-- A bind starting from a value applies the continuation. -/
theorem exceptBind_ok {α β : Type} {a : α} {f : α → Except PyErr β} :
    ((Except.ok a : Except PyErr α) >>= f) = f a := rfl

/-- A string built from a non-empty character list is not the empty string. -/
theorem string_mk_ne_empty {l : List Char} (h : l ≠ []) : (⟨l⟩ : String) ≠ "" := by
  intro he
  exact h (congrArg String.data he)

/-- Underlying characters of `pjoin`. -/
theorem pjoin_data (a b : String) : (pjoin a b).data = pjoinL a.data b.data := rfl

/-- `os.path.join` is associative when the middle component is non-empty and
neither starts nor ends with a separator. -/
theorem pjoinL_assoc {b : List Char} (hb0 : b ≠ []) (hbh : b.head? ≠ some '/')
    (hbl : b.getLast? ≠ some '/') (a c : List Char) :
    pjoinL a (pjoinL b c) = pjoinL (pjoinL a b) c := by
  by_cases hch : c.head? = some '/'
  · simp [pjoinL, hch, hbh]
  · have hbc : pjoinL b c = b ++ '/' :: c := by
      simp [pjoinL, hch, hb0, hbl]
    have hbchead : (b ++ '/' :: c).head? = b.head? :=
      List.head?_append_of_ne_nil _ hb0
    have hb_ne : ∀ a' : List Char, a' ++ b ≠ [] := by
      intro a' hx
      exact hb0 (List.append_eq_nil.mp hx).2
    have hlast : ∀ a' : List Char, (a' ++ b).getLast? = b.getLast? := fun a' =>
      List.getLast?_append_of_ne_nil a' hb0
    rw [hbc]
    by_cases ha : a = [] ∨ a.getLast? = some '/'
    · have h1 : pjoinL a (b ++ '/' :: c) = a ++ (b ++ '/' :: c) := by
        simp only [pjoinL, hbchead]
        rw [if_neg hbh, if_pos ha]
      have h2 : pjoinL a b = a ++ b := by
        simp only [pjoinL]
        rw [if_neg hbh, if_pos ha]
      rw [h1, h2]
      have h3 : pjoinL (a ++ b) c = (a ++ b) ++ '/' :: c := by
        simp only [pjoinL]
        rw [if_neg hch, if_neg]
        rw [hlast a]
        push_neg
        exact ⟨hb_ne a, hbl⟩
      rw [h3, List.append_assoc]
    · have h1 : pjoinL a (b ++ '/' :: c) = a ++ '/' :: (b ++ '/' :: c) := by
        simp only [pjoinL, hbchead]
        rw [if_neg hbh, if_neg ha]
      have h2 : pjoinL a b = a ++ '/' :: b := by
        simp only [pjoinL]
        rw [if_neg hbh, if_neg ha]
      rw [h1, h2]
      have h3 : pjoinL (a ++ '/' :: b) c = (a ++ '/' :: b) ++ '/' :: c := by
        simp only [pjoinL]
        rw [if_neg hch, if_neg]
        have : (a ++ '/' :: b).getLast? = b.getLast? := by
          rw [List.getLast?_append_cons]
          obtain ⟨x, b', rfl⟩ := List.exists_cons_of_ne_nil hb0
          rw [List.getLast?_cons_cons]
        rw [this]
        push_neg
        refine ⟨by simp, hbl⟩
      rw [h3]
      simp

/-- Joining onto a non-empty first component never yields the empty path. -/
theorem pjoinL_ne_nil {a f : List Char} (ha : a ≠ []) : pjoinL a f ≠ [] := by
  unfold pjoinL
  split
  · next h => intro hn; rw [hn] at h; simp at h
  · split
    · intro hn
      exact ha (List.append_eq_nil.mp hn).1
    · intro hn
      have := (List.append_eq_nil.mp hn).2
      simp at this

/-- String version of `pjoinL_ne_nil`. -/
theorem pjoin_ne_empty {a f : String} (ha : a ≠ "") : pjoin a f ≠ "" := by
  apply string_mk_ne_empty
  apply pjoinL_ne_nil
  intro hd
  exact ha (congrArg String.mk hd)

/-- Whether an `Except` computation produced a value. -/
def exceptOk {α : Type} : Except PyErr α → Bool
  | .ok _ => true
  | .error _ => false

/-- `dedupGo` only emits elements of its input list. -/
theorem dedupGo_subset : ∀ (ws seen : List String) (w : String),
    w ∈ dedupGo seen ws → w ∈ ws := by
  intro ws
  induction ws with
  | nil => intro seen w h; simp [dedupGo] at h
  | cons w' ws ih =>
    intro seen w h
    unfold dedupGo at h
    by_cases hm : w' ∈ seen
    · rw [if_pos hm] at h
      exact List.mem_cons_of_mem _ (ih seen w h)
    · rw [if_neg hm] at h
      rcases List.mem_cons.mp h with h1 | h2
      · exact h1 ▸ List.mem_cons_self _ _
      · exact List.mem_cons_of_mem _ (ih (seen ++ [w']) w h2)

/-- The keyword fold of the source computes exactly the first-seen
deduplication of the template's keyword texts, appended to whatever was
accumulated already. -/
theorem foldKw_eq : ∀ (ks : List XML) (ws acc : List String),
    kwTextList ks = .ok ws → foldKw ks acc = .ok (acc ++ dedupGo acc ws) := by
  intro ks
  induction ks with
  | nil =>
    intro ws acc h
    simp only [kwTextList] at h
    cases h
    simp [foldKw, dedupGo]
  | cons k ks ih =>
    intro ws acc h
    simp only [kwTextList] at h
    cases hfc : k.firstChild with
    | none =>
      rw [hfc] at h
      simp [exceptBind_error] at h
    | some fc =>
      rw [hfc] at h
      simp only [] at h
      rw [exceptBind_ok_iff] at h
      obtain ⟨w, hw, h⟩ := h
      rw [exceptBind_ok_iff] at h
      obtain ⟨ws', hws', h⟩ := h
      cases h
      simp only [foldKw]
      rw [hfc]
      simp only []
      rw [hw, exceptBind_ok]
      by_cases hm : w ∈ acc
      · rw [if_pos hm, ih ws' acc hws']
        simp [dedupGo, hm]
      · rw [if_neg hm, ih ws' (acc ++ [w]) hws']
        simp [dedupGo, hm]

/-- Shape of a node a successful `journalInit` returns: a journal of the
requested kind, named by the first `name` descendant, with empty
collections and no `children` attribute in the Trash case. -/
theorem journalInit_ok_shape {p : Option String → Except PyErr PyDateTime}
    {build : XML → Except PyErr MJNode} {kind : JKind} {x : XML} {n : MJNode}
    (h : journalInit p build kind x = .ok n) :
    ∃ nm d c m ch js es kw,
      n = .journal kind nm d c m ch js es kw ∧
      wholeTextOfFirst x "name" = .ok nm ∧
      (kind = .trash → ch = none ∧ js = [] ∧ es = []) := by
  simp only [journalInit] at h
  rw [exceptBind_ok_iff] at h
  obtain ⟨⟨d, c, m⟩, hd, h⟩ := h
  simp only [] at h
  rw [exceptBind_ok_iff] at h
  obtain ⟨nm, hnm, h⟩ := h
  cases kind with
  | trash =>
    simp only [] at h
    cases h
    exact ⟨nm, d, c, m, none, [], [], none, rfl, hnm, fun _ => ⟨rfl, rfl, rfl⟩⟩
  | regular =>
    simp only [] at h
    rw [exceptBind_ok_iff] at h
    obtain ⟨⟨cs, js, es, kw⟩, hpc, h⟩ := h
    simp only [] at h
    cases h
    exact ⟨nm, d, c, m, some cs, js, es, kw, rfl, hnm, fun hk => by cases hk⟩
  | smart =>
    simp only [] at h
    rw [exceptBind_ok_iff] at h
    obtain ⟨⟨cs, js, es, kw⟩, hpc, h⟩ := h
    simp only [] at h
    cases h
    exact ⟨nm, d, c, m, some cs, js, es, kw, rfl, hnm, fun hk => by cases hk⟩

/-- Shape of a node a successful `entryInit` returns: an entry whose
filename is the content id plus the `splitext` extension of the content
type, both looked up in the `content` dictionary. -/
theorem entryInit_ok_shape {p : Option String → Except PyErr PyDateTime}
    {x : XML} {n : MJNode} (h : entryInit p x = .ok n) :
    ∃ nm d c m content i ty kw,
      n = .entry nm d c m content (i ++ splitextExt ty) kw ∧
      pyDictGet content "type" = .ok ty ∧ pyDictGet content "id" = .ok i := by
  simp only [entryInit] at h
  rw [exceptBind_ok_iff] at h
  obtain ⟨⟨d, c, m⟩, hd, h⟩ := h
  simp only [] at h
  rw [exceptBind_ok_iff] at h
  obtain ⟨nm, hnm, h⟩ := h
  rw [exceptBind_ok_iff] at h
  obtain ⟨contentEl, hce, h⟩ := h
  rw [exceptBind_ok_iff] at h
  obtain ⟨ty, hty, h⟩ := h
  rw [exceptBind_ok_iff] at h
  obtain ⟨i, hi, h⟩ := h
  cases h
  exact ⟨nm, d, c, m, contentEl.attrsOf, i, ty, (x.getElements "keywords").head?,
    rfl, hty, hi⟩

/-- A node the factory returns with `isJournal` comes from `journalInit`
(with the dispatched kind recoverable from the node itself). -/
theorem childFactory_ok_journal {p : Option String → Except PyErr PyDateTime}
    {fuel : Nat} {x : XML} {n : MJNode}
    (h : childFactory p fuel x = .ok n) (hj : n.isJournal = true) :
    ∃ build kind, journalInit p build kind x = .ok n := by
  cases fuel with
  | zero => simp [childFactory] at h
  | succ fuel =>
    simp only [childFactory] at h
    split_ifs at h with h1 h2 h3
    · exact ⟨_, _, h⟩
    · rw [exceptBind_ok_iff] at h
      obtain ⟨nm, hnm, h⟩ := h
      split_ifs at h
      · exact ⟨_, _, h⟩
      · exact ⟨_, _, h⟩
    · obtain ⟨nm, d, c, m, ct, i, ty, kw, hn, _, _⟩ := entryInit_ok_shape h
      rw [hn] at hj
      simp [MJNode.isJournal] at hj

/-- A node the factory returns with `isJournal = false` comes from
`entryInit`, and the markup's tag was `entry`. -/
theorem childFactory_ok_entry {p : Option String → Except PyErr PyDateTime}
    {fuel : Nat} {x : XML} {n : MJNode}
    (h : childFactory p fuel x = .ok n) (hj : n.isJournal = false) :
    entryInit p x = .ok n := by
  cases fuel with
  | zero => simp [childFactory] at h
  | succ fuel =>
    simp only [childFactory] at h
    split_ifs at h with h1 h2 h3
    · obtain ⟨nm, d, c, m, ch, js, es, kw, hn, _, _⟩ := journalInit_ok_shape h
      rw [hn] at hj
      simp [MJNode.isJournal] at hj
    · rw [exceptBind_ok_iff] at h
      obtain ⟨nm, hnm, h⟩ := h
      split_ifs at h <;>
        · obtain ⟨nm', d, c, m, ch, js, es, kw, hn, _, _⟩ := journalInit_ok_shape h
          rw [hn] at hj
          simp [MJNode.isJournal] at hj
    · exact h

/-- With the single-argument `strptime` the source actually calls, the date
step of `_MJElement.__init__` never completes. -/
theorem parseDates_strptime1_not_ok (x : XML) :
    exceptOk (parseDates strptime1 x) = false := by
  simp only [parseDates]
  cases h : dateNodeValue x "date" with
  | error e => rfl
  | ok v => rfl

/-- `journalInit` with the actual `strptime` call always raises. -/
theorem journalInit_strptime1_not_ok
    (build : XML → Except PyErr MJNode) (kind : JKind) (x : XML) :
    exceptOk (journalInit strptime1 build kind x) = false := by
  simp only [journalInit]
  have hp := parseDates_strptime1_not_ok x
  cases h : parseDates strptime1 x with
  | error e => rfl
  | ok v => rw [h] at hp; simp [exceptOk] at hp

/-- `entryInit` with the actual `strptime` call always raises. -/
theorem entryInit_strptime1_not_ok (x : XML) :
    exceptOk (entryInit strptime1 x) = false := by
  simp only [entryInit]
  have hp := parseDates_strptime1_not_ok x
  cases h : parseDates strptime1 x with
  | error e => rfl
  | ok v => rw [h] at hp; simp [exceptOk] at hp

/-- C1: the claim states that, with the required date/created/modified child
fields present, constructing any node variant succeeds without raising — in
particular that the single-argument `datetime.datetime.strptime` call of the
shared base constructor returns normally.  The code contradicts this: the
call raises `TypeError` for every input, so the factory never returns a
node of any variant, whatever the markup (this theorem needs no hypothesis
on the date fields at all — construction fails even when they are
present). -/
theorem claim_C1_construction_always_raises (fuel : Nat) (x : XML) :
    exceptOk (childFactory strptime1 fuel x) = false := by
  cases fuel with
  | zero => rfl
  | succ fuel =>
    simp only [childFactory]
    split_ifs with h1 h2 h3
    · exact journalInit_strptime1_not_ok _ _ _
    · cases hn : wholeTextOfFirst x "name" with
      | error e => rfl
      | ok nm =>
        rw [exceptBind_ok]
        split_ifs <;> exact journalInit_strptime1_not_ok _ _ _
    · exact entryInit_strptime1_not_ok _
    · rfl

/-- Joining through the literal `"Content"` segment is associative. -/
theorem pjoin_assoc_content (a c : String) :
    pjoin a (pjoin "Content" c) = pjoin (pjoin a "Content") c :=
  congrArg String.mk (pjoinL_assoc (by decide) (by decide) (by decide) a.data c.data)

/-- C2 (amended): for every entry built by the factory whose content
dictionary holds `id` and `type`, `RealPath()` is the parent's real path
joined with `"Content"` and the filename `id ++ splitextExt type` — the
extension `os.path.splitext` derives, which is empty when the type text
holds no dot. -/
theorem claim_C2_entry_realpath {p : Option String → Except PyErr PyDateTime}
    {fuel : Nat} {x : XML} {n : MJNode} (ch : MJChain) {i ty : String}
    (h : childFactory p fuel x = .ok n) (he : n.isJournal = false)
    (hid : pyDictGet n.contentOf "id" = .ok i)
    (hty : pyDictGet n.contentOf "type" = .ok ty) :
    MJChain.RealPath (.cons ch n.toData) =
      pjoin (pjoin ch.RealPath "Content") (i ++ splitextExt ty) := by
  have hE := childFactory_ok_entry h he
  obtain ⟨nm, d, c, m, ct, i', ty', kw, hn, hty', hid'⟩ := entryInit_ok_shape hE
  subst hn
  simp only [MJNode.contentOf] at hid hty
  rw [hty'] at hty
  injection hty with hty
  subst hty
  rw [hid'] at hid
  injection hid with hid
  subst hid
  simp only [MJChain.RealPath, MJNode.toData, MJNode.realpathFrag, MJNode.nameOf]
  rw [if_pos (pjoin_ne_empty (by decide))]
  exact pjoin_assoc_content _ _

/-- Markup of the scenario entry of the claim: topic "Day One", the three
required date fields, and a content element with id `abc123` and type
`text/rtf`. -/
def c2xml : XML := .element "entry" []
  [ .element "topic" [] [.text "Day One"],
    .element "date" [] [.text "2020-01-01"],
    .element "created" [] [.text "2020-01-01"],
    .element "modified" [] [.text "2020-01-01"],
    .element "content" [("id", "abc123"), ("type", "text/rtf")] [] ]

/-- Node the factory builds from `c2xml` (dates parsed hypothetically). -/
def c2node : MJNode := .entry "Day One" (some "2020-01-01") (some "2020-01-01")
  (some "2020-01-01") [("id", "abc123"), ("type", "text/rtf")] "abc123" none

/-- Document stub whose absolute path plays `<docAbsPath>`. -/
def c2doc : MJDocT := ⟨"/MJ", "/MJ", "/MJ/Content", "", []⟩

/-- C2 counterexample: for the claim's own scenario — content id `abc123`,
type `text/rtf` — the constructed entry's `RealPath()` is
`<docAbsPath>/Content/abc123`, not the claimed
`<docAbsPath>/Content/abc123.rtf`: `os.path.splitext("text/rtf")` yields no
extension because the type text holds no dot. -/
theorem claim_C2_counterexample :
    childFactory strptimeOk 2 c2xml = .ok c2node ∧
    MJChain.RealPath (.cons (.doc c2doc) c2node.toData) = "/MJ/Content/abc123" ∧
    "/MJ/Content/abc123" ≠ "/MJ/Content/abc123.rtf" :=
  ⟨rfl, rfl, by decide⟩

/-- C2 witness: the amended claim applied to the scenario entry. -/
theorem claim_C2_entry_realpath_witness :
    childFactory strptimeOk 2 c2xml = .ok c2node ∧
    c2node.isJournal = false ∧
    pyDictGet c2node.contentOf "id" = .ok "abc123" ∧
    pyDictGet c2node.contentOf "type" = .ok "text/rtf" ∧
    MJChain.RealPath (.cons (.doc c2doc) c2node.toData) =
      pjoin (pjoin (MJChain.RealPath (.doc c2doc)) "Content")
        ("abc123" ++ splitextExt "text/rtf") :=
  ⟨rfl, rfl, rfl, rfl,
    @claim_C2_entry_realpath strptimeOk 2 c2xml c2node (.doc c2doc)
      "abc123" "text/rtf" rfl rfl rfl rfl⟩

/-- Inversion of the classifier's `journal`-tag branch when the name it
reads is `"Trash"`: the node came from the Trash-variant constructor. -/
theorem factory_journal_trash_inv {p : Option String → Except PyErr PyDateTime}
    {fuel : Nat} {x : XML} {n : MJNode}
    (htag : x.nodeName = "journal")
    (hname : wholeTextOfFirst x "name" = .ok "Trash")
    (h : childFactory p fuel x = .ok n) :
    ∃ build, journalInit p build .trash x = .ok n := by
  cases fuel with
  | zero => simp [childFactory] at h
  | succ fuel =>
    simp only [childFactory] at h
    split_ifs at h with h1
    · rw [htag] at h1
      simp at h1
    · rw [hname, exceptBind_ok] at h
      rw [if_pos rfl] at h
      exact ⟨_, h⟩

/-- C3 (amended): for every markup node with tag `journal` for which the
text the classifier reads — the first `name` element of the subtree in
document order — is `"Trash"`, any successful node construction yields a
Trash Journal whose `Entries` and `Journals` collections are empty,
whatever else the subtree holds. -/
theorem claim_C3_trash_journal {p : Option String → Except PyErr PyDateTime}
    {fuel : Nat} {x : XML} {n : MJNode}
    (htag : x.nodeName = "journal")
    (hname : wholeTextOfFirst x "name" = .ok "Trash")
    (h : childFactory p fuel x = .ok n) :
    n.kindOf = some .trash ∧ n.entriesOf = [] ∧ n.journalsOf = [] := by
  obtain ⟨build, hJ⟩ := factory_journal_trash_inv htag hname h
  obtain ⟨nm, d, c, m, ch, js, es, kw, hn, hnm, htr⟩ := journalInit_ok_shape hJ
  obtain ⟨hch, hjs, hes⟩ := htr rfl
  subst hn
  subst hjs
  subst hes
  simp [MJNode.kindOf, MJNode.entriesOf, MJNode.journalsOf]

/-- Markup refuting the claim as stated: the node's own (direct child)
`name` element says `"Trash"`, but an earlier sibling subtree contains a
`name` element saying `"Inner"`, and `getElementsByTagName('name')[0]`
returns that one. -/
def c3cexXml : XML := .element "journal" []
  [ .element "children" []
      [ .element "journal" []
          [ .element "name" [] [.text "Inner"],
            .element "date" [] [.text "d"],
            .element "created" [] [.text "c"],
            .element "modified" [] [.text "m"] ] ],
    .element "name" [] [.text "Trash"],
    .element "date" [] [.text "d"],
    .element "created" [] [.text "c"],
    .element "modified" [] [.text "m"] ]

/-- C3 counterexample: a `journal` node whose child `name` element's text is
literally `"Trash"` (first conjunct) for which classification nevertheless
builds a regular journal — the classifier reads the first `name` descendant
in document order, here the nested `"Inner"` — and its journal collection
is not even empty. -/
theorem claim_C3_counterexample :
    (c3cexXml.childNodes.filter (fun c => c.nodeName = "name")).map XML.childNodes
        = [[XML.text "Trash"]] ∧
    (childFactory strptimeOk 3 c3cexXml).map MJNode.kindOf = .ok (some .regular) ∧
    (childFactory strptimeOk 3 c3cexXml).map (fun n => n.journalsOf.length) = .ok 1 :=
  ⟨rfl, rfl, rfl⟩

/-- Markup for the C3 witness: a Trash journal carrying arbitrary content
(even an unrecognised element, which a regular parse would reject). -/
def c3wXml : XML := .element "journal" []
  [ .element "name" [] [.text "Trash"],
    .element "date" [] [.text "d"],
    .element "created" [] [.text "c"],
    .element "modified" [] [.text "m"],
    .element "children" [] [ .element "junk" [] [] ] ]

/-- Node built from `c3wXml`. -/
def c3wNode : MJNode :=
  .journal .trash "Trash" (some "d") (some "c") (some "m") none [] [] none

/-- C3 witness: the amended claim applied to a concrete Trash journal whose
subtree holds content a regular parse could not even classify. -/
theorem claim_C3_trash_journal_witness :
    childFactory strptimeOk 1 c3wXml = .ok c3wNode ∧
    (c3wNode.kindOf = some .trash ∧ c3wNode.entriesOf = [] ∧ c3wNode.journalsOf = []) :=
  ⟨rfl, @claim_C3_trash_journal strptimeOk 1 c3wXml c3wNode rfl rfl rfl⟩

/-- C4 (amended): for every node, a completed `keywords()` call returns the
texts of the node's keyword-template's `keyword` descendant elements (in
document order) with duplicates dropped and first-seen order preserved;
with no template it returns the empty list; the result only ever contains
texts of the node's own template (no parent inheritance); and a second call
returns the identical cached list. -/
theorem claim_C4_keywords {ke : XML} {ws : List String} {kwE : Option XML}
    {r : List String} {cache' : Option (List String)}
    (hws : kwTextsOf ke = .ok ws)
    (h2 : keywordsCall none kwE = .ok (r, cache')) :
    keywordsCall none none = .ok ([], some []) ∧
    keywordsCall none (some ke) = .ok (dedupFirstSeen ws, some (dedupFirstSeen ws)) ∧
    (∀ w, w ∈ dedupFirstSeen ws → w ∈ ws) ∧
    keywordsCall cache' kwE = .ok (r, cache') := by
  simp only [kwTextsOf] at hws
  refine ⟨rfl, ?_, ?_, ?_⟩
  · have hf := foldKw_eq (ke.getElements "keyword") ws [] hws
    simp only [keywordsCall, computeKeywords]
    rw [hf, exceptBind_ok]
    simp [dedupFirstSeen]
  · exact fun w hw => dedupGo_subset ws [] w hw
  · simp only [keywordsCall] at h2
    rw [exceptBind_ok_iff] at h2
    obtain ⟨ks, hks, h2⟩ := h2
    injection h2 with h2
    cases h2
    rfl

/-- Keyword template with a nested, non-child `keyword` element. -/
def c4cexKe : XML := .element "keywords" []
  [ .element "wrap" [] [ .element "keyword" [] [.text "nested"] ] ]

/-- C4 counterexample: a template with no `keyword` child at all (first
conjunct) still yields the text of a nested `keyword` descendant —
`keywords()` reads `getElementsByTagName('keyword')`, a descendant search,
so "the node's own keyword-template children" misdescribes it. -/
theorem claim_C4_counterexample :
    (c4cexKe.childNodes.filter (fun c => c.nodeName = "keyword")) = [] ∧
    keywordsCall none (some c4cexKe) = .ok (["nested"], some ["nested"]) ∧
    (["nested"] : List String) ≠ [] :=
  ⟨rfl, rfl, by decide⟩

/-- Keyword template with a duplicated keyword text. -/
def c4wKe : XML := .element "keywords" []
  [ .element "keyword" [] [.text "alpha"],
    .element "keyword" [] [.text "beta"],
    .element "keyword" [] [.text "alpha"] ]

/-- C4 witness: the amended claim applied to a template with the duplicate
text `alpha`, which appears once, first, in the result; calling again with
the cache returns the identical list. -/
theorem claim_C4_keywords_witness :
    kwTextsOf c4wKe = .ok ["alpha", "beta", "alpha"] ∧
    keywordsCall none (some c4wKe) = .ok (["alpha", "beta"], some ["alpha", "beta"]) ∧
    keywordsCall (some ["alpha", "beta"]) (some c4wKe) =
      .ok (["alpha", "beta"], some ["alpha", "beta"]) := by
  have h := @claim_C4_keywords c4wKe ["alpha", "beta", "alpha"] (some c4wKe)
    ["alpha", "beta"] (some ["alpha", "beta"]) rfl rfl
  exact ⟨rfl, h.2.1, h.2.2.2⟩

/-- C5: for every journal built by the factory, `RelativePath()` is the
parent's relative path joined with the journal's name, and a constructed
document root's `RelativePath()` is the empty path (its `rel_path` is set
to `''` during construction). -/
theorem claim_C5_relative_path {p p2 : Option String → Except PyErr PyDateTime}
    {fuel fuel2 : Nat} {x idx : XML} {n : MJNode} {isDir : Bool}
    {path abs : String} {d : MJDocT} (ch : MJChain)
    (hj : childFactory p fuel x = .ok n) (hjk : n.isJournal = true)
    (hd : mjdocInit p2 fuel2 isDir path abs idx = .ok d) :
    MJChain.RelativePath (.cons ch n.toData) = pjoin ch.RelativePath n.nameOf ∧
    d.RelativePath = "" := by
  constructor
  · rfl
  · cases isDir with
    | false => simp [mjdocInit] at hd
    | true =>
      simp only [mjdocInit, if_pos] at hd
      rw [exceptBind_ok_iff] at hd
      obtain ⟨mj, _, hd⟩ := hd
      rw [exceptBind_ok_iff] at hd
      obtain ⟨bc, _, hd⟩ := hd
      rw [exceptBind_ok_iff] at hd
      obtain ⟨che, _, hd⟩ := hd
      rw [exceptBind_ok_iff] at hd
      obtain ⟨js, _, hd⟩ := hd
      cases hd
      rfl

/-- Markup of a top-level journal "Personal" holding the single entry
"Day One" (`c2xml`). -/
def personalXml : XML := .element "journal" []
  [ .element "name" [] [.text "Personal"],
    .element "date" [] [.text "2020-01-01"],
    .element "created" [] [.text "2020-01-01"],
    .element "modified" [] [.text "2020-01-01"],
    .element "children" [] [ c2xml ] ]

/-- Node built from `personalXml`. -/
def personalNode : MJNode := .journal .regular "Personal" (some "2020-01-01")
  (some "2020-01-01") (some "2020-01-01") (some [c2node]) [] [c2node] none

/-- Decoded index whose only top-level journal is "Personal". -/
def mjIndexXml : XML := .element "#document" []
  [ .element "macjournalml" []
      [ .element "bookcase" []
          [ .element "children" [] [ personalXml ] ] ] ]

/-- Document constructed from `mjIndexXml` at source path `/MJ`. -/
def mjDocPersonal : MJDocT := ⟨"/MJ", "/MJ", "/MJ/Content", "", [("Personal", personalNode)]⟩

/-- C5 witness: the claim applied to the constructed "Personal" journal at
the root of the constructed document. -/
theorem claim_C5_relative_path_witness :
    childFactory strptimeOk 3 personalXml = .ok personalNode ∧
    personalNode.isJournal = true ∧
    mjdocInit strptimeOk 3 true "/MJ" "/MJ" mjIndexXml = .ok mjDocPersonal ∧
    (MJChain.RelativePath (.cons (.doc mjDocPersonal) personalNode.toData) =
        pjoin (MJChain.RelativePath (.doc mjDocPersonal)) personalNode.nameOf ∧
      mjDocPersonal.RelativePath = "") :=
  ⟨rfl, rfl, rfl,
    @claim_C5_relative_path strptimeOk strptimeOk 3 3 personalXml mjIndexXml
      personalNode true "/MJ" "/MJ" mjDocPersonal (.doc mjDocPersonal) rfl rfl rfl⟩

/-- C6: every journal the factory builds — regular, smart or trash — has
`_realpath = None`, so its `RealPath()` is its parent's `RealPath()`
unchanged. -/
theorem claim_C6_journal_realpath {p : Option String → Except PyErr PyDateTime}
    {fuel : Nat} {x : XML} {n : MJNode} (ch : MJChain)
    (h : childFactory p fuel x = .ok n) (hk : n.isJournal = true) :
    MJChain.RealPath (.cons ch n.toData) = ch.RealPath := by
  obtain ⟨build, kind, hJ⟩ := childFactory_ok_journal h hk
  obtain ⟨nm, d, c, m, chl, js, es, kw, hn, _, _⟩ := journalInit_ok_shape hJ
  subst hn
  simp [MJChain.RealPath, MJNode.toData, MJNode.realpathFrag]

/-- C6 witness: the claim applied to the constructed "Personal" journal. -/
theorem claim_C6_journal_realpath_witness :
    childFactory strptimeOk 3 personalXml = .ok personalNode ∧
    personalNode.isJournal = true ∧
    MJChain.RealPath (.cons (.doc mjDocPersonal) personalNode.toData) =
      MJChain.RealPath (.doc mjDocPersonal) :=
  ⟨rfl, rfl,
    @claim_C6_journal_realpath strptimeOk 3 personalXml personalNode
      (.doc mjDocPersonal) rfl rfl⟩

/-- Inversion of an `Except` bind that errored. -/
theorem exceptBind_error_iff {α β : Type} {e : Except PyErr α} {f : α → Except PyErr β}
    {er : PyErr} :
    (e >>= f) = .error er ↔ (e = .error er ∨ ∃ a, e = .ok a ∧ f a = .error er) := by
  cases e <;> simp [Bind.bind, Except.bind]

/-- The tag names the classifier recognises. -/
def recognizedTags : List String := ["smart_journal", "journal", "entry"]

/-- The unrecognised-element error of `_childFactory` for a given tag. -/
def unrecognizedErr (t : String) : PyErr :=
  .notImplementedError ("I don\x27t know how to deal with child type: " ++ t)

/-- An error message of the unrecognised-element shape, for some tag the
classifier does not recognise. -/
def isUnrecognizedMsg (m : String) : Prop :=
  ∃ t, t ∉ recognizedTags ∧ m = "I don\x27t know how to deal with child type: " ++ t

/-- The errors of a date-field lookup. -/
theorem dateNodeValue_err {x : XML} {attr : String} {e : PyErr}
    (h : dateNodeValue x attr = .error e) :
    e = .indexError ∨ e = .attributeError "nodeValue" := by
  simp only [dateNodeValue] at h
  split at h
  · left; cases h; rfl
  · split at h
    · right; cases h; rfl
    · cases h

/-- With a succeeding date parse, the date step only raises lookup errors. -/
theorem parseDates_strptimeOk_err {x : XML} {e : PyErr}
    (h : parseDates strptimeOk x = .error e) :
    e = .indexError ∨ e = .attributeError "nodeValue" := by
  simp only [parseDates, strptimeOk] at h
  rw [exceptBind_error_iff] at h
  rcases h with h | ⟨v, _, h⟩
  · exact dateNodeValue_err h
  · rw [exceptBind_ok] at h
    rw [exceptBind_error_iff] at h
    rcases h with h | ⟨v2, _, h⟩
    · exact dateNodeValue_err h
    · rw [exceptBind_ok] at h
      rw [exceptBind_error_iff] at h
      rcases h with h | ⟨v3, _, h⟩
      · exact dateNodeValue_err h
      · cases h

/-- `wholeText` only raises an attribute error. -/
theorem wholeText_err {y : XML} {e : PyErr} (h : y.wholeText = .error e) :
    e = .attributeError "wholeText" := by
  cases y with
  | text d => simp [XML.wholeText] at h
  | element tg a cs =>
    simp only [XML.wholeText] at h
    cases h
    rfl

/-- The errors of `getElementsByTagName(t)[0].firstChild.wholeText`. -/
theorem wholeTextOfFirst_err {x : XML} {t : String} {e : PyErr}
    (h : wholeTextOfFirst x t = .error e) :
    e = .indexError ∨ e = .attributeError "wholeText" := by
  simp only [wholeTextOfFirst] at h
  split at h
  · left; cases h; rfl
  · split at h
    · right; cases h; rfl
    · exact Or.inr (wholeText_err h)

/-- The topic lookup of an entry only raises an attribute error. -/
theorem entryTopic_err {x : XML} {e : PyErr} (h : entryTopic x = .error e) :
    e = .attributeError "wholeText" := by
  simp only [entryTopic] at h
  split at h
  · cases h
  · split at h
    · cases h; rfl
    · exact wholeText_err h

/-- The element lookup only raises `IndexError`. -/
theorem firstOfTagE_err {x : XML} {t : String} {e : PyErr}
    (h : firstOfTagE x t = .error e) : e = .indexError := by
  simp only [firstOfTagE] at h
  split at h
  · cases h; rfl
  · cases h

/-- The dictionary lookup only raises `KeyError`. -/
theorem pyDictGet_err {l : List (String × String)} {k : String} {e : PyErr}
    (h : pyDictGet l k = .error e) : e = .keyError k := by
  simp only [pyDictGet] at h
  split at h
  · cases h
  · cases h; rfl

/-- Entry construction (with a succeeding date parse) never raises the
unrecognised-element error. -/
theorem entryInit_no_notImpl {x : XML} {m : String} :
    entryInit strptimeOk x ≠ .error (.notImplementedError m) := by
  intro h
  simp only [entryInit] at h
  rw [exceptBind_error_iff] at h
  rcases h with h | ⟨⟨d, c, mo⟩, _, h⟩
  · rcases parseDates_strptimeOk_err h with he | he <;> cases he
  · rw [exceptBind_error_iff] at h
    rcases h with h | ⟨nm, _, h⟩
    · cases entryTopic_err h
    · rw [exceptBind_error_iff] at h
      rcases h with h | ⟨ce, _, h⟩
      · cases firstOfTagE_err h
      · rw [exceptBind_error_iff] at h
        rcases h with h | ⟨ty, _, h⟩
        · cases pyDictGet_err h
        · rw [exceptBind_error_iff] at h
          rcases h with h | ⟨i, _, h⟩
          · cases pyDictGet_err h
          · cases h

/-- If the child builder only raises unrecognised-element errors with
unrecognised tags, so does the `_parseContents` loop. -/
theorem buildChildren_notImpl {build : XML → Except PyErr MJNode}
    (hb : ∀ c m, build c = .error (.notImplementedError m) → isUnrecognizedMsg m) :
    ∀ (cns : List XML) (cs : List MJNode) (js : List (String × MJNode))
      (es : List MJNode) (m : String),
      buildChildren build cns cs js es = .error (.notImplementedError m) →
      isUnrecognizedMsg m := by
  intro cns
  induction cns with
  | nil => intro cs js es m h; simp [buildChildren] at h
  | cons cn rest ih =>
    intro cs js es m h
    simp only [buildChildren] at h
    rw [exceptBind_error_iff] at h
    rcases h with h | ⟨child, _, h⟩
    · exact hb cn m h
    · cases child with
      | journal k nm d c mo ch js' es' kw => exact ih _ _ _ _ h
      | entry nm d c mo ct fn kw => exact ih _ _ _ _ h

/-- Same invariant for `_parseContents` as a whole. -/
theorem parseContents_notImpl {build : XML → Except PyErr MJNode} {x : XML} {m : String}
    (hb : ∀ c m', build c = .error (.notImplementedError m') → isUnrecognizedMsg m')
    (h : parseContents build x = .error (.notImplementedError m)) :
    isUnrecognizedMsg m := by
  simp only [parseContents] at h
  split at h
  · cases h
  · rw [exceptBind_error_iff] at h
    rcases h with h | ⟨⟨cs, js, es⟩, _, h⟩
    · exact buildChildren_notImpl hb _ _ _ _ _ h
    · cases h

/-- Same invariant for journal construction. -/
theorem journalInit_notImpl {build : XML → Except PyErr MJNode} {kind : JKind}
    {x : XML} {m : String}
    (hb : ∀ c m', build c = .error (.notImplementedError m') → isUnrecognizedMsg m')
    (h : journalInit strptimeOk build kind x = .error (.notImplementedError m)) :
    isUnrecognizedMsg m := by
  simp only [journalInit] at h
  rw [exceptBind_error_iff] at h
  rcases h with h | ⟨⟨d, c, mo⟩, _, h⟩
  · rcases parseDates_strptimeOk_err h with he | he <;> cases he
  · rw [exceptBind_error_iff] at h
    rcases h with h | ⟨nm, _, h⟩
    · rcases wholeTextOfFirst_err h with he | he <;> cases he
    · cases kind with
      | trash => cases h
      | regular =>
        rw [exceptBind_error_iff] at h
        rcases h with h | ⟨⟨cs, js, es, kw⟩, _, h⟩
        · exact parseContents_notImpl hb h
        · cases h
      | smart =>
        rw [exceptBind_error_iff] at h
        rcases h with h | ⟨⟨cs, js, es, kw⟩, _, h⟩
        · exact parseContents_notImpl hb h
        · cases h

/-- Every unrecognised-element error the classifier propagates names a tag
outside the recognised set. -/
theorem childFactory_notImpl : ∀ (fuel : Nat) (x : XML) (m : String),
    childFactory strptimeOk fuel x = .error (.notImplementedError m) →
    isUnrecognizedMsg m := by
  intro fuel
  induction fuel with
  | zero => intro x m h; simp [childFactory] at h
  | succ fuel ih =>
    intro x m h
    simp only [childFactory] at h
    split_ifs at h with h1 h2 h3
    · exact journalInit_notImpl (fun c m' hc => ih c m' hc) h
    · rw [exceptBind_error_iff] at h
      rcases h with h | ⟨nm, _, h⟩
      · rcases wholeTextOfFirst_err h with he | he <;> cases he
      · split_ifs at h <;> exact journalInit_notImpl (fun c m' hc => ih c m' hc) h
    · exact absurd h entryInit_no_notImpl
    · injection h with h'
      injection h' with h''
      exact ⟨x.nodeName, by simp [recognizedTags, h1, h2, h3], h''.symm⟩

/-- Characters of a string concatenation. -/
theorem strAppend_data (a b : String) : (a ++ b).data = a.data ++ b.data := rfl

/-- Left cancellation for string concatenation. -/
theorem string_append_left_cancel {a b c : String} (h : a ++ b = a ++ c) : b = c := by
  have hd := congrArg String.data h
  rw [strAppend_data, strAppend_data] at hd
  exact congrArg String.mk (List.append_cancel_left hd)

/-- C7: every markup node whose tag name is none of `smart_journal`,
`journal`, `entry` makes the classifier raise the fatal
unrecognised-element error (constructing no node); for a recognised tag
name, the classifier never raises that error for this node's tag — any
unrecognised-element error it propagates from the subtree names some
unrecognised descendant tag instead. -/
theorem claim_C7_classifier {fuel : Nat} (x : XML) (hf : 0 < fuel) :
    (x.nodeName ∉ recognizedTags →
      childFactory strptimeOk fuel x = .error (unrecognizedErr x.nodeName)) ∧
    (x.nodeName ∈ recognizedTags →
      childFactory strptimeOk fuel x ≠ .error (unrecognizedErr x.nodeName)) := by
  obtain ⟨fuel, rfl⟩ : ∃ f, fuel = f + 1 := ⟨fuel - 1, by omega⟩
  constructor
  · intro hout
    have h1 : ¬x.nodeName = "smart_journal" := fun hh => hout (by rw [hh]; simp [recognizedTags])
    have h2 : ¬x.nodeName = "journal" := fun hh => hout (by rw [hh]; simp [recognizedTags])
    have h3 : ¬x.nodeName = "entry" := fun hh => hout (by rw [hh]; simp [recognizedTags])
    simp only [childFactory]
    rw [if_neg h1, if_neg h2, if_neg h3]
    rfl
  · intro hin h
    simp only [unrecognizedErr] at h
    obtain ⟨t, htn, hmsg⟩ := childFactory_notImpl (fuel + 1) x _ h
    have hxt : x.nodeName = t := string_append_left_cancel hmsg
    rw [hxt] at hin
    exact htn hin

/-- C7 witness: a `widget` element is rejected with the
unrecognised-element error, while the recognised `entry` element `c2xml`
never triggers it. -/
theorem claim_C7_classifier_witness :
    (XML.element "widget" [] []).nodeName ∉ recognizedTags ∧
    childFactory strptimeOk 1 (.element "widget" [] []) =
      .error (unrecognizedErr "widget") ∧
    c2xml.nodeName ∈ recognizedTags ∧
    childFactory strptimeOk 1 c2xml ≠ .error (unrecognizedErr c2xml.nodeName) := by
  have h1 := (@claim_C7_classifier 1 (.element "widget" [] []) (by decide)).1 (by decide)
  have h2 := (@claim_C7_classifier 1 c2xml (by decide)).2 (by decide)
  exact ⟨by decide, h1, by decide, h2⟩

/-- Markup of a smart journal (a saved search named "Search"). -/
def smartXml : XML := .element "smart_journal" []
  [ .element "name" [] [.text "Search"],
    .element "date" [] [.text "2020-01-01"],
    .element "created" [] [.text "2020-01-01"],
    .element "modified" [] [.text "2020-01-01"] ]

/-- Node built from `smartXml`. -/
def smartNode : MJNode := .journal .smart "Search" (some "2020-01-01")
  (some "2020-01-01") (some "2020-01-01") (some []) [] [] none

/-- Decoded index whose only top-level child is the smart journal. -/
def smartIndexXml : XML := .element "#document" []
  [ .element "macjournalml" []
      [ .element "bookcase" []
          [ .element "children" [] [ smartXml ] ] ] ]

/-- Document constructed from `smartIndexXml`. -/
def mjDocSmart : MJDocT := ⟨"/MJ", "/MJ", "/MJ/Content", "", [("Search", smartNode)]⟩

/-- C8: the claim states that invoking export on a smart journal the way
the export pass does — `child.MakeLaTeX(LT, texdir, level=level+1)` — is a
no-op that returns normally.  The code contradicts the "returns normally"
part: `smart_journal.MakeLaTeX(self, texdir, level=0)` lacks the `LT`
parameter, so the call binds both a positional and the keyword argument to
`level` and Python raises `TypeError` before the body runs.  The remaining
parts hold vacuously: the state is untouched — no heading appended, no
directory created, no child visited — both for a direct invocation on any
smart journal and for a whole-document export over a document whose only
top-level child is a smart journal. -/
theorem claim_C8_smart_export :
    (∀ (levels : List String) (fuel : Nat) (name : String) (d c m : PyDateTime)
        (children : Option (List MJNode)) (js : List (String × MJNode))
        (es : List MJNode) (kw : Option XML) (texdir : String) (level : Nat) (st : ExpSt),
      childMakeLaTeX levels (fuel + 1) (.journal .smart name d c m children js es kw)
          texdir level st =
        (st, .error (.typeError "MakeLaTeX() got multiple values for argument \x27level\x27"))) ∧
    mjdocInit strptimeOk 2 true "/MJ" "/MJ" smartIndexXml = .ok mjDocSmart ∧
    (∀ (levels : List String) (fuel : Nat) (texdir : String) (level : Nat) (st : ExpSt),
      mjdocMakeLaTeX levels (fuel + 1) mjDocSmart texdir level st =
        (st, .error (.typeError "MakeLaTeX() got multiple values for argument \x27level\x27"))) :=
  ⟨fun _ _ _ _ _ _ _ _ _ _ _ _ _ => rfl, rfl, fun _ _ _ _ _ => rfl⟩

/-- C9: exporting the document whose only top-level journal "Personal"
holds the single entry "Day One" at level 0 appends exactly the plain
heading for "Personal" at the level-0 heading name followed by the starred
heading for "Day One" at the level-1 heading name, creates exactly the
directory `<dest>/Personal`, and the entry's own export returns the join of
its directory and its name (no file content is written — the model's state
holds only directories and heading lines). -/
theorem claim_C9_export_scenario (levels : List String) (l0 l1 : String)
    (dest : String) (fs lines : List String)
    (h0 : levels.get? 0 = some l0) (h1 : levels.get? 1 = some l1)
    (hdir : pjoin dest "Personal" ∉ fs) :
    mjdocInit strptimeOk 3 true "/MJ" "/MJ" mjIndexXml = .ok mjDocPersonal ∧
    mjdocMakeLaTeX levels 2 mjDocPersonal dest 0 ⟨fs, lines⟩ =
      (⟨fs ++ [pjoin dest "Personal"],
        lines ++ [headingPlain l0 "Personal", headingStar l1 "Day One"]⟩, .ok none) ∧
    childMakeLaTeX levels 1 c2node (pjoin dest "Personal") 1
        ⟨fs ++ [pjoin dest "Personal"], lines ++ [headingPlain l0 "Personal"]⟩ =
      (⟨fs ++ [pjoin dest "Personal"],
        lines ++ [headingPlain l0 "Personal", headingStar l1 "Day One"]⟩,
        .ok (some (pjoin (pjoin dest "Personal") "Day One"))) := by
  rw [List.get?_eq_getElem?] at h0 h1
  have hl0 : levelsGet levels 0 = .ok l0 := by simp [levelsGet, List.get?_eq_getElem?, h0]
  have hl1 : levelsGet levels 1 = .ok l1 := by simp [levelsGet, List.get?_eq_getElem?, h1]
  refine ⟨rfl, ?_, ?_⟩
  · simp [mjdocMakeLaTeX, mjDocPersonal, exportChildren, childMakeLaTeX,
      personalNode, c2node, hl0, hl1, hdir]
  · simp [childMakeLaTeX, c2node, hl1]

/-- C9 witness: the scenario at the concrete table `[section, subsection]`,
destination `/out`, and an empty starting state. -/
theorem claim_C9_export_scenario_witness :
    ([("section" : String), "subsection"].get? 0 = some "section" ∧
      (["section", "subsection"] : List String).get? 1 = some "subsection" ∧
      pjoin "/out" "Personal" ∉ ([] : List String)) ∧
    mjdocMakeLaTeX ["section", "subsection"] 2 mjDocPersonal "/out" 0 ⟨[], []⟩ =
      (⟨["/out/Personal"],
        [headingPlain "section" "Personal", headingStar "subsection" "Day One"]⟩, .ok none) := by
  have h := claim_C9_export_scenario ["section", "subsection"] "section" "subsection"
    "/out" [] [] rfl rfl (by decide)
  exact ⟨⟨rfl, rfl, by decide⟩, h.2.1⟩

/-- C10: for every entry markup with no `location` element, `latitude()`,
`longitude()` and `location()` all return `None` — no numeric default and
no error — whatever the external `float` conversion does. -/
theorem claim_C10_location_absent {α : Type} (pf : String → Except PyErr α) (x : XML)
    (h : x.getElements "location" = []) :
    entryLatitude pf x = .ok none ∧ entryLongitude pf x = .ok none ∧
    entryLocation pf x = .ok none := by
  have h1 : entryLatitude pf x = .ok none := by simp [entryLatitude, h]
  have h2 : entryLongitude pf x = .ok none := by simp [entryLongitude, h]
  refine ⟨h1, h2, ?_⟩
  simp only [entryLocation, h1, h2]
  rfl

/-- C10 witness: the claim applied to the "Day One" entry markup, which has
no `location` element, with a concrete conversion function. -/
theorem claim_C10_location_absent_witness :
    c2xml.getElements "location" = [] ∧
    (entryLatitude (fun s => .ok s) c2xml = .ok none ∧
      entryLongitude (fun s => .ok s) c2xml = .ok none ∧
      entryLocation (fun s => .ok s) c2xml = .ok none) :=
  ⟨rfl, claim_C10_location_absent (fun s => .ok s) c2xml rfl⟩
